import Mathlib

/-!
Verification development for the kikuchipy repository slice.

The slice contains three files:
* `readthedocs.yaml` — the Read the Docs documentation-build configuration;
* `doc/tutorials/virtual_backscatter_electron_imaging.ipynb` — a tutorial notebook;
* `doc/tutorials/hough_indexing.ipynb` — a file holding two notebook JSON documents
  ("Hough indexing" and "Visualizing patterns"), separated by a document separator.

The YAML configuration is embedded as literal Lean data mirroring the file.
Each notebook is embedded as a list of cells; a code cell is a list of Python
statements rendered in a small statement syntax (`PyStmt`) that records, for each
statement of the source, its kind (import, name binding, attribute/item assignment,
bare call, display expression, print, for-loop with its body, the four file-system
operations that occur, and markers for constructs such as try/except, raise,
conditionals and function/class definitions that the notebooks could have contained
but do not).  Call argument lists are abstracted away; the callee and the assignment
targets are kept verbatim.
-/

/-- The files present in the repository slice, with their paths. -/
def repoSliceFiles : List String :=
  ["readthedocs.yaml",
   "doc/tutorials/virtual_backscatter_electron_imaging.ipynb",
   "doc/tutorials/hough_indexing.ipynb"]

/-- readthedocs.yaml line 6: `version: 2`. -/
def rtdConfigVersion : Nat := 2

/-- readthedocs.yaml lines 9-10: `sphinx: configuration: doc/conf.py`. -/
def sphinxConfiguration : String := "doc/conf.py"

/-- The `build` section of readthedocs.yaml: OS image, tool (language runtime)
versions as an association list, and apt packages. -/
structure RtdBuild where
  os : String
  tools : List (String × String)
  apt_packages : List String

/-- readthedocs.yaml lines 13-24. -/
def rtdBuild : RtdBuild :=
  { os := "ubuntu-22.04",
    tools := [("python", "3.10"), ("nodejs", "19")],
    apt_packages := ["imagemagick", "libgl1-mesa-dev", "xvfb"] }

/-- readthedocs.yaml lines 29-31: the `formats` list.  The `pdf` entry on line 31
is commented out in the source, so only `htmlzip` is requested. -/
def rtdFormats : List String := ["htmlzip"]

/-- One entry of the `python.install` list of readthedocs.yaml. -/
structure RtdPipInstall where
  method : String
  path : String
  extra_requirements : List String

/-- readthedocs.yaml lines 34-40: install the project at path "." by pip with the
extra dependency groups "doc" and "viz". -/
def rtdPythonInstall : List RtdPipInstall :=
  [{ method := "pip", path := ".", extra_requirements := ["doc", "viz"] }]

/-- Association-list lookup by string key (used for the notebook variable
environment and for the `build.tools` table). -/
def assocLookup (l : List (String × String)) (x : String) : Option String :=
  match l with
  | [] => none
  | (y, v) :: rest => if y = x then some v else assocLookup rest x

/-- Claim C1 (corrected): the claim states that the declared Sphinx configuration
path `doc/conf.py` refers to a file that exists in the repository slice; the slice
contains only `readthedocs.yaml` and the two tutorial notebooks, so the conjunction
is false. -/
theorem C1_counterexample :
    ¬ (sphinxConfiguration = "doc/conf.py" ∧ sphinxConfiguration ∈ repoSliceFiles) := by
  decide

/-- Claim C1, amended: the build configuration declares the Sphinx configuration
file path `doc/conf.py`, but that path is not among the files of the repository
slice. -/
theorem C1_amended :
    sphinxConfiguration = "doc/conf.py" ∧ sphinxConfiguration ∉ repoSliceFiles := by
  decide

/-- Claim C4 (confirmed): the package-installation step of the build configuration
consists of exactly one entry, which installs the project itself by pip from path
"." with exactly the two extra dependency groups "doc" and "viz". -/
theorem C4_install_step :
    rtdPythonInstall.length = 1 ∧
    (rtdPythonInstall.all fun i =>
      decide (i.method = "pip" ∧ i.path = "." ∧ i.extra_requirements = ["doc", "viz"])) = true := by
  decide

/-- Claim C5 (confirmed): the requested output formats list contains exactly the
single entry `htmlzip`; neither `pdf` nor `epub` is requested (the `pdf` entry is
commented out in the source file). -/
theorem C5_formats :
    rtdFormats = ["htmlzip"] ∧ "pdf" ∉ rtdFormats ∧ "epub" ∉ rtdFormats := by
  decide

/-- Claim C6 (confirmed): the apt packages listed for the documentation build are
exactly imagemagick, libgl1-mesa-dev and xvfb. -/
theorem C6_apt_packages :
    rtdBuild.apt_packages = ["imagemagick", "libgl1-mesa-dev", "xvfb"] := rfl

/-- Claim C7 (confirmed): the build configuration names exactly one OS image,
ubuntu-22.04, and language-runtime versions for exactly two ecosystems: Python
"3.10" and Node.js "19". -/
theorem C7_os_and_tools :
    rtdBuild.os = "ubuntu-22.04" ∧
    rtdBuild.tools.length = 2 ∧
    rtdBuild.tools = [("python", "3.10"), ("nodejs", "19")] := by
  decide

/-- A Python statement of a notebook code cell, in the abstraction described in
the header: targets, callees and subscript keys are kept verbatim as strings,
argument lists are dropped.  The constructors `tryExcept`, `raiseStmt`,
`condBranch`, `whileLoop`, `funcDef` and `classDef` represent constructs that
Python cells could contain; none occurs in the transcribed notebooks, which the
theorems below make precise. -/
inductive PyStmt where
  /-- An import or from-import statement; the imported modules. -/
  | libImport (mods : List String)
  /-- An IPython magic line such as `%matplotlib inline`. -/
  | magic (line : String)
  /-- `x = e`: binds (or rebinds) the plain name `x`; `rhs` is the root of the
  right-hand-side expression. -/
  | bind (x : String) (rhs : String)
  /-- `x, y = e`: tuple unpacking into plain names. -/
  | bindTuple (xs : List String) (rhs : String)
  /-- `obj.attr = e`: assignment into an attribute of the existing object `obj`. -/
  | attrAssign (obj : String) (attr : String) (rhs : String)
  /-- `obj[key] = e`: assignment into an item of the existing object `obj`. -/
  | itemAssign (obj : String) (key : String) (rhs : String)
  /-- A bare call statement; `callee` is the full dotted callee. -/
  | callStmt (callee : String)
  /-- A bare expression at the end of a cell, displayed by the notebook. -/
  | display (e : String)
  /-- A `print(e)` statement. -/
  | printStmt (e : String)
  /-- `for _ in iter:` with the loop body. -/
  | forLoop (iter : String) (body : List PyStmt)
  /-- `x = Path(tempfile.mkdtemp())`: creates a fresh temporary directory and
  binds its path to `x`. -/
  | mkdtempBind (x : String)
  /-- `plt.imsave(dirVar / file, ...)`: writes an image file into the directory
  held by variable `dirVar`. -/
  | imsave (dirVar : String) (file : String)
  /-- `os.remove(dirVar / file)`. -/
  | osRemove (dirVar : String) (file : String)
  /-- `os.rmdir(dirVar)`. -/
  | osRmdir (dirVar : String)
  /-- Marker for a try/except block (exception catching). -/
  | tryExcept
  /-- Marker for a raise statement. -/
  | raiseStmt
  /-- Marker for an if/else failure or dependency-check branch. -/
  | condBranch
  /-- Marker for a while loop (e.g. a retry loop). -/
  | whileLoop
  /-- Marker for a function definition. -/
  | funcDef (name : String)
  /-- Marker for a class definition. -/
  | classDef (name : String)

/-- A notebook cell: markdown prose or code.  Markdown prose is abstracted to the
list of dependencies whose optionality the cell notes (empty for all other
prose). -/
inductive NBCell where
  | markdown (optionalDeps : List String)
  | code (stmts : List PyStmt)

/-- A notebook document: its cells in order and the Python version recorded in
its `metadata.language_info.version`. -/
structure Notebook where
  cells : List NBCell
  kernelVersion : String

/-- The code cells of a notebook, in order. -/
def notebookCodeCells (nb : Notebook) : List (List PyStmt) :=
  nb.cells.filterMap fun c =>
    match c with
    | .code stmts => some stmts
    | .markdown _ => none

/-- Whether some markdown cell of the notebook notes that `dep` is an optional
dependency. -/
def notebookNotesOptionalDep (nb : Notebook) (dep : String) : Bool :=
  nb.cells.any fun c =>
    match c with
    | .markdown deps => deps.contains dep
    | .code _ => false

mutual

/-- Whether a statement assigns into an existing object (an attribute or item
assignment), anywhere, including inside loop bodies. -/
def stmtHasObjectWrite : PyStmt → Bool
  | .attrAssign _ _ _ => true
  | .itemAssign _ _ _ => true
  | .forLoop _ body => stmtsHaveObjectWrite body
  | _ => false

/-- `stmtHasObjectWrite` over a statement list. -/
def stmtsHaveObjectWrite : List PyStmt → Bool
  | [] => false
  | st :: rest => stmtHasObjectWrite st || stmtsHaveObjectWrite rest

end

mutual

/-- Whether a statement is an error-handling construct (exception catching, a
raise, a conditional failure branch, or a retry loop), anywhere, including
inside for-loop bodies. -/
def stmtHasErrHandling : PyStmt → Bool
  | .tryExcept => true
  | .raiseStmt => true
  | .condBranch => true
  | .whileLoop => true
  | .forLoop _ body => stmtsHaveErrHandling body
  | _ => false

/-- `stmtHasErrHandling` over a statement list. -/
def stmtsHaveErrHandling : List PyStmt → Bool
  | [] => false
  | st :: rest => stmtHasErrHandling st || stmtsHaveErrHandling rest

end

mutual

/-- Whether a statement defines a function or a class, anywhere, including
inside for-loop bodies. -/
def stmtHasDefinition : PyStmt → Bool
  | .funcDef _ => true
  | .classDef _ => true
  | .forLoop _ body => stmtsHaveDefinition body
  | _ => false

/-- `stmtHasDefinition` over a statement list. -/
def stmtsHaveDefinition : List PyStmt → Bool
  | [] => false
  | st :: rest => stmtHasDefinition st || stmtsHaveDefinition rest

end

/-- Whether a cell contains a for loop at its top level. -/
def cellHasLoop (c : List PyStmt) : Bool :=
  c.any fun st =>
    match st with
    | .forLoop _ _ => true
    | _ => false

/-- Whether a statement is pure setup: an import or an IPython magic. -/
def stmtIsSetup : PyStmt → Bool
  | .libImport _ => true
  | .magic _ => true
  | _ => false

/-- Whether a statement displays or file-writes a result: a bare display
expression, a print, or an image save. -/
def stmtIsDisplayOrSave : PyStmt → Bool
  | .display _ => true
  | .printStmt _ => true
  | .imsave _ _ => true
  | _ => false

/-- A cell is a single operation immediately followed by display or file-write
when, apart from setup and display/write statements, it contains at most one
statement (the single library call). -/
def cellIsSingleOpThenDisplay (c : List PyStmt) : Bool :=
  decide ((c.filter fun st => !(stmtIsSetup st) && !(stmtIsDisplayOrSave st)).length ≤ 1)

/-- virtual_backscatter_electron_imaging.ipynb, code cell 1 (source lines 42-67):
imports, a matplotlib rcParams item assignment, loading the dataset, display. -/
def vbseC1 : List PyStmt :=
  [.magic "matplotlib inline",
   .libImport ["pathlib.Path", "tempfile", "matplotlib.pyplot", "numpy",
               "hyperspy.api", "kikuchipy"],
   .itemAssign "plt.rcParams" "font.size" "12",
   .bind "s" "kp.data.nickel_ebsd_large",
   .display "s"]

/-- virtual_backscatter_electron_imaging.ipynb, code cell 2 (lines 77-86). -/
def vbseC2 : List PyStmt :=
  [.bind "roi" "hs.roi.RectangularROI",
   .callStmt "s.plot_virtual_bse_intensity"]

/-- virtual_backscatter_electron_imaging.ipynb, code cell 3 (lines 101-110). -/
def vbseC3 : List PyStmt :=
  [.bind "vbse" "s.get_virtual_bse_intensity",
   .display "vbse"]

/-- virtual_backscatter_electron_imaging.ipynb, code cell 4 (lines 111-120):
creates a temporary directory and saves the virtual image into it. -/
def vbseC4 : List PyStmt :=
  [.mkdtempBind "temp_dir",
   .imsave "temp_dir" "vbse1.png"]

/-- virtual_backscatter_electron_imaging.ipynb, code cell 5 (lines 151-160). -/
def vbseC5 : List PyStmt :=
  [.bind "vbse_imager" "kp.imaging.VirtualBSEImager",
   .display "vbse_imager"]

/-- virtual_backscatter_electron_imaging.ipynb, code cell 6 (lines 171-179). -/
def vbseC6 : List PyStmt :=
  [.display "vbse_imager.grid_shape"]

/-- virtual_backscatter_electron_imaging.ipynb, code cell 7 (lines 180-197):
reassigns the imager grid shape, binds three tile lists, plots the grid. -/
def vbseC7 : List PyStmt :=
  [.attrAssign "vbse_imager" "grid_shape" "(10, 10)",
   .bind "red" "[(7, 1), (8, 1), (8, 2), (9, 1), (9, 2)]",
   .bind "green" "[(8, 4), (8, 5), (9, 4), (9, 5)]",
   .bind "blue" "[(7, 8), (8, 7), (8, 8), (9, 7), (9, 8)]",
   .bind "p" "vbse_imager.plot_grid",
   .display "p"]

/-- virtual_backscatter_electron_imaging.ipynb, code cell 8 (lines 216-225). -/
def vbseC8 : List PyStmt :=
  [.bind "vbse_rgb_img" "vbse_imager.get_rgb_image",
   .display "vbse_rgb_img"]

/-- virtual_backscatter_electron_imaging.ipynb, code cell 9 (lines 226-241). -/
def vbseC9 : List PyStmt :=
  [.callStmt "vbse_rgb_img.plot"]

/-- virtual_backscatter_electron_imaging.ipynb, code cell 10 (lines 258-268). -/
def vbseC10 : List PyStmt :=
  [.attrAssign "vbse_imager" "grid_shape" "(3, 3)",
   .bind "vbse_imgs" "vbse_imager.get_images_from_grid",
   .display "vbse_imgs"]

/-- virtual_backscatter_electron_imaging.ipynb, code cell 11 (lines 269-277). -/
def vbseC11 : List PyStmt :=
  [.callStmt "vbse_imgs.plot"]

/-- virtual_backscatter_electron_imaging.ipynb, code cell 12 (lines 278-292):
the multi-statement plotting loop over np.ndindex. -/
def vbseC12 : List PyStmt :=
  [.bindTuple ["fig", "ax"] "plt.subplots",
   .forLoop "np.ndindex(vbse_imgs.axes_manager.navigation_shape[::-1])"
     [.bind "hs_idx" "idx[::-1]",
      .callStmt "ax[idx].imshow",
      .callStmt "ax[idx].axis"],
   .callStmt "fig.tight_layout"]

/-- virtual_backscatter_electron_imaging.ipynb, code cell 13 (lines 308-316). -/
def vbseC13 : List PyStmt :=
  [.display "vbse_imgs.data.dtype"]

/-- virtual_backscatter_electron_imaging.ipynb, code cell 14 (lines 317-326). -/
def vbseC14 : List PyStmt :=
  [.bind "vbse_imgs2" "vbse_imgs.deepcopy",
   .callStmt "vbse_imgs2.rescale_intensity"]

/-- virtual_backscatter_electron_imaging.ipynb, code cell 15 (lines 327-336). -/
def vbseC15 : List PyStmt :=
  [.printStmt "vbse_imgs.data.min(), vbse_imgs.data.max()",
   .printStmt "vbse_imgs2.data.min(), vbse_imgs2.data.max()"]

/-- virtual_backscatter_electron_imaging.ipynb, code cell 16 (lines 337-350):
the second multi-statement plotting loop. -/
def vbseC16 : List PyStmt :=
  [.bindTuple ["fig", "ax"] "plt.subplots",
   .forLoop "np.ndindex(vbse_imgs2.axes_manager.navigation_shape[::-1])"
     [.bind "hs_idx" "idx[::-1]",
      .callStmt "ax[idx].imshow",
      .callStmt "ax[idx].axis"],
   .callStmt "fig.tight_layout"]

/-- virtual_backscatter_electron_imaging.ipynb, code cell 17 (lines 359-368). -/
def vbseC17 : List PyStmt :=
  [.bind "roi2" "vbse_imager.roi_from_grid",
   .display "roi2"]

/-- virtual_backscatter_electron_imaging.ipynb, code cell 18 (lines 369-383):
the hidden cleanup cell removing the file and directory written above. -/
def vbseC18 : List PyStmt :=
  [.libImport ["os"],
   .osRemove "temp_dir" "vbse1.png",
   .osRmdir "temp_dir"]

/-- The virtual backscatter electron imaging notebook: all 32 cells in order
(markdown cells abstracted as described on `NBCell`), and the kernel Python
version "3.10.9" of its metadata (line 401). -/
def vbseNotebook : Notebook :=
  { cells :=
      [.markdown [], .markdown [], .markdown [],
       .code vbseC1,
       .markdown [],
       .code vbseC2,
       .markdown [],
       .code vbseC3, .code vbseC4,
       .markdown [], .markdown [],
       .code vbseC5,
       .markdown [],
       .code vbseC6, .code vbseC7,
       .markdown [], .markdown [],
       .code vbseC8, .code vbseC9,
       .markdown [], .markdown [],
       .code vbseC10, .code vbseC11, .code vbseC12,
       .markdown [],
       .code vbseC13, .code vbseC14, .code vbseC15, .code vbseC16,
       .markdown [],
       .code vbseC17, .code vbseC18],
    kernelVersion := "3.10.9" }

/-- hough_indexing.ipynb, code cell 1 (source lines 38-63): imports and a
matplotlib rcParams update call. -/
def houghC1 : List PyStmt :=
  [.magic "matplotlib inline",
   .libImport ["matplotlib.pyplot", "numpy", "diffpy.structure",
               "diffsims.crystallography", "kikuchipy", "orix.plot",
               "orix.crystal_map", "orix.vector"],
   .callStmt "plt.rcParams.update"]

/-- hough_indexing.ipynb, code cell 2 (lines 72-82). -/
def houghC2 : List PyStmt :=
  [.bind "s" "kp.data.nickel_ebsd_large",
   .display "s"]

/-- hough_indexing.ipynb, code cell 3 (lines 95-105). -/
def houghC3 : List PyStmt :=
  [.bind "vbse_imager" "kp.imaging.VirtualBSEImager",
   .printStmt "vbse_imager.grid_shape"]

/-- hough_indexing.ipynb, code cell 4 (lines 114-124). -/
def houghC4 : List PyStmt :=
  [.bind "maps_vbse_rgb" "vbse_imager.get_rgb_image",
   .display "maps_vbse_rgb"]

/-- hough_indexing.ipynb, code cell 5 (lines 133-142). -/
def houghC5 : List PyStmt :=
  [.callStmt "maps_vbse_rgb.plot"]

/-- hough_indexing.ipynb, code cell 6 (lines 153-163): background removal calls
(these methods operate in place on the signal s per the library docs). -/
def houghC6 : List PyStmt :=
  [.callStmt "s.remove_static_background",
   .callStmt "s.remove_dynamic_background"]

/-- hough_indexing.ipynb, code cell 7 (lines 172-181). -/
def houghC7 : List PyStmt :=
  [.bind "maps_iq" "s.get_image_quality"]

/-- hough_indexing.ipynb, code cell 8 (lines 190-205). -/
def houghC8 : List PyStmt :=
  [.callStmt "s.xmap.plot"]

/-- hough_indexing.ipynb, code cell 9 (lines 227-239). -/
def houghC9 : List PyStmt :=
  [.bind "sig_shape" "s.axes_manager.signal_shape[::-1]",
   .bind "det" "kp.detectors.EBSDDetector",
   .display "det"]

/-- hough_indexing.ipynb, code cell 10 (lines 248-259). -/
def houghC10 : List PyStmt :=
  [.bind "grid_shape" "(5, 4)",
   .bindTuple ["s_grid", "idx"] "s.extract_grid",
   .display "s_grid"]

/-- hough_indexing.ipynb, code cell 11 (lines 268-283). -/
def houghC11 : List PyStmt :=
  [.bind "nav_shape" "s.axes_manager.navigation_shape[::-1]",
   .callStmt "kp.draw.plot_pattern_positions_in_map"]

/-- hough_indexing.ipynb, code cell 12 (lines 296-315). -/
def houghC12 : List PyStmt :=
  [.bind "phase_list" "PhaseList",
   .display "phase_list"]

/-- hough_indexing.ipynb, code cell 13 (lines 316-331). -/
def houghC13 : List PyStmt :=
  [.bind "indexer" "det.get_indexer",
   .printStmt "indexer.vendor",
   .printStmt "indexer.sampleTilt",
   .printStmt "indexer.camElev",
   .printStmt "indexer.PC",
   .printStmt "indexer.phaselist"]

/-- hough_indexing.ipynb, code cell 14 (lines 341-358): rebinds det to the
optimized detector returned by the library. -/
def houghC14 : List PyStmt :=
  [.bind "det" "s_grid.hough_indexing_optimize_pc",
   .printStmt "det.pc_flattened.mean(axis=0)",
   .printStmt "det.pc_flattened.std(0)"]

/-- hough_indexing.ipynb, code cell 15 (lines 367-376). -/
def houghC15 : List PyStmt :=
  [.callStmt "det.plot_pc"]

/-- hough_indexing.ipynb, code cell 16 (lines 387-396): assigns the average PC
into the detector object. -/
def houghC16 : List PyStmt :=
  [.attrAssign "det" "pc" "det.pc_average"]

/-- hough_indexing.ipynb, code cell 17 (lines 405-414). -/
def houghC17 : List PyStmt :=
  [.callStmt "det.plot"]

/-- hough_indexing.ipynb, code cell 18 (lines 426-436). -/
def houghC18 : List PyStmt :=
  [.bind "indexer" "det.get_indexer",
   .display "indexer.PC"]

/-- hough_indexing.ipynb, code cell 19 (lines 447-456). -/
def houghC19 : List PyStmt :=
  [.bind "xmap" "s.hough_indexing"]

/-- hough_indexing.ipynb, code cell 20 (lines 457-466). -/
def houghC20 : List PyStmt :=
  [.display "xmap"]

/-- hough_indexing.ipynb, code cell 21 (lines 483-500): the multi-statement
quality-metric plotting loop. -/
def houghC21 : List PyStmt :=
  [.bind "aspect_ratio" "xmap.shape[1] / xmap.shape[0]",
   .bind "figsize" "(8 * aspect_ratio, 4.5 * aspect_ratio)",
   .bindTuple ["fig", "ax"] "plt.subplots",
   .forLoop "zip(ax.ravel(), [pq, cm, fit, nmatch])"
     [.bind "im" "a.imshow",
      .callStmt "fig.colorbar",
      .callStmt "a.axis"],
   .callStmt "fig.subplots_adjust"]

/-- hough_indexing.ipynb, code cell 22 (lines 514-526). -/
def houghC22 : List PyStmt :=
  [.bind "v_ipf" "Vector3d.xvector",
   .bind "sym" "xmap.phases[0].point_group",
   .bind "ckey" "plot.IPFColorKeyTSL",
   .display "ckey"]

/-- hough_indexing.ipynb, code cell 23 (lines 537-561). -/
def houghC23 : List PyStmt :=
  [.bind "rgb_x" "ckey.orientation2color",
   .bind "fig" "xmap.plot",
   .bind "ax_ckey" "fig.add_axes",
   .callStmt "ax_ckey.plot_ipf_color_key",
   .callStmt "ax_ckey.patch.set_facecolor"]

/-- hough_indexing.ipynb, code cell 24 (lines 570-592): the multi-statement
IPF plotting loop, which reassigns the color-key direction on each pass. -/
def houghC24 : List PyStmt :=
  [.bind "directions" "Vector3d",
   .bind "n" "directions.size",
   .bind "figsize" "(4 * n * aspect_ratio, n * aspect_ratio)",
   .bindTuple ["fig", "ax"] "plt.subplots",
   .forLoop "zip(range(n), [X, Y, Z])"
     [.attrAssign "ckey" "direction" "directions[i]",
      .bind "rgb" "ckey.orientation2color",
      .callStmt "ax[i].imshow",
      .callStmt "ax[i].set_title",
      .callStmt "ax[i].axis"],
   .callStmt "fig.subplots_adjust"]

/-- hough_indexing.ipynb, code cell 25 (lines 603-617). -/
def houghC25 : List PyStmt :=
  [.bind "rlv" "ReciprocalLatticeVector",
   .bind "rlv" "rlv.symmetrise",
   .bind "simulator" "kp.simulations.KikuchiPatternSimulator",
   .bind "sim" "simulator.on_detector"]

/-- hough_indexing.ipynb, code cell 26 (lines 627-639). -/
def houghC26 : List PyStmt :=
  [.bind "markers" "sim.as_markers",
   .callStmt "s.add_marker"]

/-- hough_indexing.ipynb, code cell 27 (lines 649-657). -/
def houghC27 : List PyStmt :=
  [.bind "maps_nav_rgb" "kp.draw.get_rgb_navigator"]

/-- hough_indexing.ipynb, code cell 28 (lines 659-667). -/
def houghC28 : List PyStmt :=
  [.callStmt "s.plot"]

/-- The Hough indexing notebook (first document of hough_indexing.ipynb): all 57
cells in order; the markdown cell at source lines 14-37 notes that PyEBSDIndex is
an optional dependency of kikuchipy.  Kernel Python version "3.10.9" (line 694). -/
def houghNotebook : Notebook :=
  { cells :=
      [.markdown [], .markdown ["PyEBSDIndex"],
       .code houghC1,
       .markdown [],
       .code houghC2,
       .markdown [],
       .code houghC3,
       .markdown [],
       .code houghC4,
       .markdown [],
       .code houghC5,
       .markdown [],
       .code houghC6,
       .markdown [],
       .code houghC7,
       .markdown [],
       .code houghC8,
       .markdown [], .markdown [],
       .code houghC9,
       .markdown [],
       .code houghC10,
       .markdown [],
       .code houghC11,
       .markdown [],
       .code houghC12, .code houghC13,
       .markdown [],
       .code houghC14,
       .markdown [],
       .code houghC15,
       .markdown [],
       .code houghC16,
       .markdown [],
       .code houghC17,
       .markdown [],
       .code houghC18,
       .markdown [],
       .code houghC19, .code houghC20,
       .markdown [], .markdown [],
       .code houghC21,
       .markdown [],
       .code houghC22,
       .markdown [],
       .code houghC23,
       .markdown [],
       .code houghC24,
       .markdown [],
       .code houghC25,
       .markdown [],
       .code houghC26,
       .markdown [],
       .code houghC27, .code houghC28,
       .markdown []],
    kernelVersion := "3.10.9" }

/-- Visualizing patterns notebook (second document inside hough_indexing.ipynb),
code cell 1 (source lines 726-748): imports and the PyVista Jupyter backend
selection call. -/
def visC1 : List PyStmt :=
  [.magic "matplotlib inline",
   .libImport ["matplotlib.pyplot", "numpy", "pyvista", "skimage.exposure",
               "skimage.transform", "hyperspy.api", "kikuchipy", "orix"],
   .callStmt "pyvista.set_jupyter_backend"]

/-- Visualizing patterns notebook, code cell 2 (lines 750-759). -/
def visC2 : List PyStmt :=
  [.bind "s" "kp.data.nickel_ebsd_large",
   .display "s"]

/-- Visualizing patterns notebook, code cell 3 (lines 771-778). -/
def visC3 : List PyStmt :=
  [.callStmt "s.plot"]

/-- Visualizing patterns notebook, code cell 4 (lines 802-811). -/
def visC4 : List PyStmt :=
  [.bind "vbse_imager" "kp.imaging.VirtualBSEImager",
   .printStmt "vbse_imager",
   .printStmt "vbse_imager.grid_shape"]

/-- Visualizing patterns notebook, code cell 5 (lines 813-821). -/
def visC5 : List PyStmt :=
  [.bind "vbse_rgb" "vbse_imager.get_rgb_image",
   .display "vbse_rgb"]

/-- Visualizing patterns notebook, code cell 6 (lines 823-830). -/
def visC6 : List PyStmt :=
  [.callStmt "s.plot"]

/-- Visualizing patterns notebook, code cell 7 (lines 841-849). -/
def visC7 : List PyStmt :=
  [.callStmt "s.remove_static_background",
   .callStmt "s.remove_dynamic_background"]

/-- Visualizing patterns notebook, code cell 8 (lines 851-860). -/
def visC8 : List PyStmt :=
  [.bind "iq" "s.get_image_quality",
   .bind "s_iq" "hs.signals.Signal2D",
   .callStmt "s.plot"]

/-- Visualizing patterns notebook, code cell 9 (lines 870-883). -/
def visC9 : List PyStmt :=
  [.bind "rgb_z" "plt.imread",
   .bind "rgb_z" "rgb_z[..., :3]",
   .bind "s_rgb_z" "kp.draw.get_rgb_navigator",
   .callStmt "s.plot"]

/-- Visualizing patterns notebook, code cell 10 (lines 906-919). -/
def visC10 : List PyStmt :=
  [.bind "mp_stereo" "kp.data.nickel_ebsd_master_pattern_small",
   .printStmt "mp_stereo.axes_manager"]

/-- Visualizing patterns notebook, code cell 11 (lines 928-942). -/
def visC11 : List PyStmt :=
  [.callStmt "mp_stereo.plot"]

/-- Visualizing patterns notebook, code cell 12 (lines 952-964): the interactive
spherical master-pattern plot. -/
def visC12 : List PyStmt :=
  [.callStmt "mp_stereo.plot_spherical"]

/-- The Visualizing patterns notebook (second document of hough_indexing.ipynb):
all 24 cells in order; the final markdown cell (source lines 966-976) notes that
PyVista is an optional dependency of kikuchipy.  Kernel Python version "3.10.9"
(line 994). -/
def visNotebook : Notebook :=
  { cells :=
      [.markdown [], .markdown [],
       .code visC1, .code visC2,
       .markdown [],
       .code visC3,
       .markdown [], .markdown [],
       .code visC4, .code visC5, .code visC6,
       .markdown [],
       .code visC7, .code visC8,
       .markdown [],
       .code visC9,
       .markdown [], .markdown [],
       .code visC10,
       .markdown [],
       .code visC11,
       .markdown [],
       .code visC12,
       .markdown ["PyVista"]],
    kernelVersion := "3.10.9" }

/-- The three notebook documents supplied in the slice, in file order. -/
def suppliedNotebooks : List Notebook :=
  [vbseNotebook, houghNotebook, visNotebook]

/-- Every code cell of every supplied notebook document, in order. -/
def allCodeCells : List (List PyStmt) :=
  notebookCodeCells vbseNotebook ++ notebookCodeCells houghNotebook ++
    notebookCodeCells visNotebook

/-- Claim C2 (corrected): the claim that no code cell mutates any object is
false: cell 16 of the Hough indexing notebook (source line 394) assigns
`det.pc = det.pc_average` into the existing detector object, so not every code
cell is free of object writes. -/
theorem C2_counterexample :
    houghNotebook.cells[32]? = some (NBCell.code houghC16) ∧
    stmtsHaveObjectWrite houghC16 = true ∧
    (allCodeCells.all fun c => !(stmtsHaveObjectWrite c)) = false :=
  ⟨rfl, rfl, rfl⟩

/-- Claim C2, amended: not every code cell leaves the referenced objects
unchanged.  The code cells containing an assignment into an existing
external-library object (an attribute or item assignment, including inside loop
bodies) are exactly: cells 1, 7 and 10 of the VBSE notebook (the rcParams item
assignment and the two grid-shape reassignments), and cells 16 and 24 of the
Hough notebook (the detector PC reassignment and the color-key direction
reassignment inside the IPF plotting loop).  Every other code cell, and every
cell of the Visualizing patterns notebook, contains no such assignment. -/
theorem C2_amended :
    (notebookCodeCells vbseNotebook).map stmtsHaveObjectWrite =
      [true, false, false, false, false, false, true, false, false, true,
       false, false, false, false, false, false, false, false] ∧
    (notebookCodeCells houghNotebook).map stmtsHaveObjectWrite =
      [false, false, false, false, false, false, false, false, false, false,
       false, false, false, false, false, true, false, false, false, false,
       false, false, false, true, false, false, false, false] ∧
    (notebookCodeCells visNotebook).map stmtsHaveObjectWrite =
      [false, false, false, false, false, false, false, false, false, false,
       false, false] :=
  ⟨rfl, rfl, rfl⟩

/-- Claim C3 (confirmed): no code cell of any supplied notebook contains an
error-handling construct (no exception catching, raise, conditional failure
branch, or retry loop appears anywhere, including inside loop bodies), and the
optionality of the PyEBSDIndex and PyVista dependencies is noted in markdown
prose cells (hough_indexing.ipynb lines 24-33 and lines 972-974 respectively);
since code cells contain no conditional or try construct at all, no dependency
is checked in code. -/
theorem C3_no_error_handling :
    (allCodeCells.all fun c => !(stmtsHaveErrHandling c)) = true ∧
    notebookNotesOptionalDep houghNotebook "PyEBSDIndex" = true ∧
    notebookNotesOptionalDep visNotebook "PyVista" = true :=
  ⟨rfl, rfl, rfl⟩

/-- Claim C8 (corrected): the claim that every operation is a single
third-party-library call immediately followed by display or file-write fails:
cell 12 of the VBSE notebook (source lines 278-292) is a multi-statement
plotting loop over np.ndindex, not a single call followed by display. -/
theorem C8_counterexample :
    vbseNotebook.cells[23]? = some (NBCell.code vbseC12) ∧
    cellIsSingleOpThenDisplay vbseC12 = false ∧
    (allCodeCells.all cellIsSingleOpThenDisplay) = false :=
  ⟨rfl, rfl, rfl⟩

/-- Claim C8, amended: every operation in the notebooks is performed by calling
into third-party libraries — no code cell defines a function or class of its
own — but not every operation is a single call immediately followed by display:
exactly four code cells arrange results with multi-statement plotting loops
(cells 12 and 16 of the VBSE notebook and cells 21 and 24 of the Hough
notebook); no other code cell contains a loop. -/
theorem C8_amended :
    (allCodeCells.all fun c => !(stmtsHaveDefinition c)) = true ∧
    (notebookCodeCells vbseNotebook).map cellHasLoop =
      [false, false, false, false, false, false, false, false, false, false,
       false, true, false, false, false, true, false, false] ∧
    (notebookCodeCells houghNotebook).map cellHasLoop =
      [false, false, false, false, false, false, false, false, false, false,
       false, false, false, false, false, false, false, false, false, false,
       true, false, false, true, false, false, false, false] ∧
    (notebookCodeCells visNotebook).map cellHasLoop =
      [false, false, false, false, false, false, false, false, false, false,
       false, false] :=
  ⟨rfl, rfl, rfl, rfl⟩

/-- The leading characters of a version string up to (but not including) the
second dot: the major.minor part of a major.minor.patch version. -/
def upToSecondDot (seenDot : Bool) : List Char → List Char
  | [] => []
  | c :: rest =>
    if c = '.' then
      if seenDot then [] else c :: upToSecondDot true rest
    else c :: upToSecondDot seenDot rest

/-- The major.minor part of a dotted version string. -/
def majorMinor (v : String) : String :=
  String.mk (upToSecondDot false v.data)

/-- Claim C10 (confirmed): the Python version installed by the documentation
build ("3.10", the value of build.tools.python in readthedocs.yaml line 16)
agrees in major.minor with the kernel Python version "3.10.9" recorded in the
metadata of every supplied notebook document. -/
theorem C10_python_versions :
    assocLookup rtdBuild.tools "python" = some "3.10" ∧
    suppliedNotebooks.map (fun nb => nb.kernelVersion) = ["3.10.9", "3.10.9", "3.10.9"] ∧
    (suppliedNotebooks.all fun nb => decide (majorMinor nb.kernelVersion = "3.10")) = true := by
  decide

/-- A filesystem path, as a list of components.  The notebook only touches a
temporary directory `[d]` and a file `[d, "vbse1.png"]` inside it. -/
abbrev FsPath := List String

/-- A filesystem state: the set (as a list) of existing entries. -/
abbrev FileSys := List FsPath

/-- A file-system operation as performed by a notebook statement.  Directory
arguments are the notebook variable holding the directory path. -/
inductive FileStep where
  | mkdtemp (x : String)
  | fwrite (dirVar : String) (file : String)
  | fremove (dirVar : String) (file : String)
  | frmdir (dirVar : String)

mutual

/-- The file-system operations a statement performs, including inside loop
bodies. -/
def stmtFileSteps : PyStmt → List FileStep
  | .mkdtempBind x => [.mkdtemp x]
  | .imsave dv f => [.fwrite dv f]
  | .osRemove dv f => [.fremove dv f]
  | .osRmdir dv => [.frmdir dv]
  | .forLoop _ body => stmtsFileSteps body
  | _ => []

/-- `stmtFileSteps` over a statement list, in order. -/
def stmtsFileSteps : List PyStmt → List FileStep
  | [] => []
  | st :: rest => stmtFileSteps st ++ stmtsFileSteps rest

end

/-- The file-system operations a cell performs (markdown cells perform none). -/
def cellFileSteps : NBCell → List FileStep
  | .markdown _ => []
  | .code stmts => stmtsFileSteps stmts

/-- The file-system operations a whole notebook performs, in execution order. -/
def notebookFileSteps (nb : Notebook) : List FileStep :=
  (nb.cells.map cellFileSteps).flatten

/-- Whether a file-system operation writes a file. -/
def isFileWrite : FileStep → Bool
  | .fwrite _ _ => true
  | _ => false

/-- Execution state for the file-system operations: the environment binding
notebook variables to directory names, and the filesystem. -/
structure FsState where
  env : List (String × String)
  fs : FileSys

/-- Whether path `p` is an entry inside directory `d`. -/
def isUnderDir (d : String) : FsPath → Bool
  | [a, _] => a = d
  | _ => false

/-- Small-step semantics of one file-system operation.  `freshName` is the name
the operating system chooses for the temporary directory (the notebook creates
exactly one); `mkdtemp` requires it to be fresh and binds the variable to it.
`fwrite` requires the parent directory to exist (as `plt.imsave` does) and
creates or overwrites the file.  `fremove` requires the file to exist (as
`os.remove` does).  `frmdir` requires the directory to exist and be empty (as
`os.rmdir` does).  A violated requirement is a run-time error, modelled as
`none`. -/
def applyFileStep (freshName : String) (s : FsState) : FileStep → Option FsState
  | .mkdtemp x =>
    if [freshName] ∈ s.fs then none
    else some ⟨(x, freshName) :: s.env, [freshName] :: s.fs⟩
  | .fwrite dv f =>
    match assocLookup s.env dv with
    | none => none
    | some d =>
      if [d] ∈ s.fs then
        some ⟨s.env, if [d, f] ∈ s.fs then s.fs else [d, f] :: s.fs⟩
      else none
  | .fremove dv f =>
    match assocLookup s.env dv with
    | none => none
    | some d =>
      if [d, f] ∈ s.fs then some ⟨s.env, s.fs.erase [d, f]⟩ else none
  | .frmdir dv =>
    match assocLookup s.env dv with
    | none => none
    | some d =>
      if [d] ∈ s.fs ∧ (s.fs.all fun p => !(isUnderDir d p)) = true then
        some ⟨s.env, s.fs.erase [d]⟩
      else none

/-- Run a list of file-system operations from a state; `none` on error. -/
def runFileSteps (freshName : String) (s : FsState) : List FileStep → Option FsState
  | [] => some s
  | stp :: rest =>
    (applyFileStep freshName s stp).bind fun s2 => runFileSteps freshName s2 rest

/-- A filesystem is well formed when the parent directory of every file entry
exists. -/
def fsWellFormed (fs : FileSys) : Prop :=
  ∀ p ∈ fs, ∀ a b : String, p = [a, b] → [a] ∈ fs

/-- In a well-formed filesystem, a directory that does not exist has no entries
under it. -/
theorem all_not_under (fs : FileSys) (d : String) (hwf : fsWellFormed fs)
    (hd : [d] ∉ fs) : (fs.all fun p => !(isUnderDir d p)) = true := by
  rw [List.all_eq_true]
  intro p hp
  match p with
  | [] => rfl
  | [_] => rfl
  | a :: b :: c :: rest => rfl
  | [a, b] =>
    simp only [isUnderDir, Bool.not_eq_true', decide_eq_false_iff_not]
    intro had
    exact hd (had ▸ hwf [a, b] hp a b rfl)

/-- Claim C9 (confirmed): running the file-system operations of the virtual
backscatter electron imaging notebook from any well-formed filesystem (with `d`
the fresh temporary directory name chosen by the operating system) succeeds and
leaves the filesystem unchanged; moreover the notebook writes exactly one file,
vbse1.png inside the temporary directory. -/
theorem C9_fs_unchanged (fs : FileSys) (d : String) (hwf : fsWellFormed fs)
    (hd : [d] ∉ fs) :
    (runFileSteps d ⟨[], fs⟩ (notebookFileSteps vbseNotebook)).map FsState.fs = some fs ∧
    (notebookFileSteps vbseNotebook).filter isFileWrite =
      [FileStep.fwrite "temp_dir" "vbse1.png"] := by
  have hchild : ([d, "vbse1.png"] : FsPath) ∉ fs := fun h =>
    hd (hwf _ h d "vbse1.png" rfl)
  constructor
  · have hsteps : notebookFileSteps vbseNotebook =
        [FileStep.mkdtemp "temp_dir", FileStep.fwrite "temp_dir" "vbse1.png",
         FileStep.fremove "temp_dir" "vbse1.png", FileStep.frmdir "temp_dir"] := rfl
    rw [hsteps]
    have h1 : applyFileStep d ⟨[], fs⟩ (FileStep.mkdtemp "temp_dir") =
        some ⟨[("temp_dir", d)], [d] :: fs⟩ := by
      simp [applyFileStep, hd]
    have h2 : applyFileStep d ⟨[("temp_dir", d)], [d] :: fs⟩
        (FileStep.fwrite "temp_dir" "vbse1.png") =
        some ⟨[("temp_dir", d)], [d, "vbse1.png"] :: [d] :: fs⟩ := by
      simp [applyFileStep, assocLookup, hchild]
    have h3 : applyFileStep d ⟨[("temp_dir", d)], [d, "vbse1.png"] :: [d] :: fs⟩
        (FileStep.fremove "temp_dir" "vbse1.png") =
        some ⟨[("temp_dir", d)], [d] :: fs⟩ := by
      simp [applyFileStep, assocLookup]
    have h4 : applyFileStep d ⟨[("temp_dir", d)], [d] :: fs⟩
        (FileStep.frmdir "temp_dir") = some ⟨[("temp_dir", d)], fs⟩ := by
      have hhead : isUnderDir d [d] = false := rfl
      simp [applyFileStep, assocLookup, hhead, all_not_under fs d hwf hd]
    simp only [runFileSteps, h1, h2, h3, h4, Option.bind, Option.map]
  · rfl

/-- Witness for C9 at the empty filesystem with fresh directory name tmp0. -/
theorem C9_fs_unchanged_witness :
    fsWellFormed ([] : FileSys) ∧ (["tmp0"] : FsPath) ∉ ([] : FileSys) ∧
    ((runFileSteps "tmp0" ⟨[], []⟩ (notebookFileSteps vbseNotebook)).map FsState.fs =
        some [] ∧
      (notebookFileSteps vbseNotebook).filter isFileWrite =
        [FileStep.fwrite "temp_dir" "vbse1.png"]) :=
  ⟨fun p hp => absurd hp (List.not_mem_nil p), List.not_mem_nil _,
   C9_fs_unchanged [] "tmp0" (fun p hp => absurd hp (List.not_mem_nil p))
     (List.not_mem_nil _)⟩
